import Mathlib

/-!
Shallow embedding of the conversational agent implemented in
`src/Aula1/main_A1.py` (class `MeuPrimeiroAgente`), together with proofs of
the specified properties of its orchestration core.

Modelling conventions:
* Python strings are Lean `String`s; the `str.lower`, `in`, `str.replace`
  and `str.strip` operations used by the source are embedded as executable
  functions on the underlying character lists.
* Timestamps (`datetime.now()` / `isoformat` / `fromisoformat`) are modelled
  as integer ticks (`Nat`); serialization renders the tick in decimal and
  parsing rejects any string that is not a non-empty digit sequence
  (the model of a malformed timestamp).
* The Gemini client is an external collaborator: generation is a parameter
  `backend : String → Except String String` where `.error` models a raised
  exception.  Tool bodies are likewise `String → Except String String`.
* Raised Python exceptions are modelled with `Except`/`Option` error values;
  `print` logging is ignored (purely informational).
-/

namespace Aula1

/-- Python `str.lower()` as used on messages (`mensagem.lower()`),
character-wise ASCII lowering. -/
def pyLower (s : String) : String :=
  String.mk (s.toList.map Char.toLower)

/-- Does `needle` occur as a contiguous run inside the character list? -/
def subOcorre (needle : List Char) : List Char → Bool
  | [] => needle.isEmpty
  | c :: rest => needle.isPrefixOf (c :: rest) || subOcorre needle rest

/-- Python substring containment `needle in haystack`. -/
def pyContains (haystack needle : String) : Bool :=
  subOcorre needle.toList haystack.toList

/-- Fuel-indexed core of Python `str.replace`: scans left to right,
replacing each non-overlapping occurrence of `needle` by `repl`.
The fuel is an upper bound on the number of characters consumed;
`pyReplace` supplies the length of the scanned list, which suffices. -/
def replaceAux (needle repl : List Char) : Nat → List Char → List Char
  | 0, s => s
  | _ + 1, [] => []
  | fuel + 1, c :: rest =>
    if !needle.isEmpty && needle.isPrefixOf (c :: rest) then
      repl ++ replaceAux needle repl fuel (List.drop (needle.length - 1) rest)
    else
      c :: replaceAux needle repl fuel rest

/-- Python `s.replace(pat, repl)` (all non-overlapping occurrences,
left to right; the degenerate empty pattern is never used by the source). -/
def pyReplace (s pat repl : String) : String :=
  String.mk (replaceAux pat.toList repl.toList s.toList.length s.toList)

/-- ASCII whitespace, the characters stripped by Python `str.strip()`. -/
def isSpaceChar (c : Char) : Bool :=
  c = ' ' || c = '\t' || c = '\n' || c = '\r' || c = '\x0b' || c = '\x0c'

/-- Python `s.strip()`: drop leading and trailing whitespace. -/
def pyStrip (s : String) : String :=
  String.mk (((s.toList.dropWhile isSpaceChar).reverse.dropWhile isSpaceChar).reverse)

/-- Decimal digit to its character. -/
def digitChar : Nat → Char
  | 0 => '0' | 1 => '1' | 2 => '2' | 3 => '3' | 4 => '4'
  | 5 => '5' | 6 => '6' | 7 => '7' | 8 => '8' | _ => '9'

/-- Character to decimal digit value. -/
def charDigit (c : Char) : Nat := c.toNat - 48

/-- Is the character a decimal digit? -/
def isDigitChar (c : Char) : Bool := 48 ≤ c.toNat && c.toNat ≤ 57

/-- Little-endian decimal digits of `n`, with explicit fuel
(`fuel ≥ n` makes the fuel irrelevant). -/
def digitsRev : Nat → Nat → List Nat
  | 0, _ => []
  | fuel + 1, n => if n = 0 then [] else n % 10 :: digitsRev fuel (n / 10)

/-- Model of `datetime.isoformat()` on tick timestamps: decimal rendering. -/
def isoformat (t : Nat) : String :=
  if t = 0 then "0" else String.mk ((digitsRev t t).reverse.map digitChar)

/-- Model of `datetime.fromisoformat`: parses a non-empty digit string back
to a tick, and fails (`none`, modelling the raised `ValueError`) on any
malformed string. -/
def fromisoformat (s : String) : Option Nat :=
  if !s.toList.isEmpty && s.toList.all isDigitChar then
    some (s.toList.foldl (fun n c => n * 10 + charDigit c) 0)
  else
    none

/-- `class Role(Enum)`: the four conversation roles. -/
inductive Role where
  | system
  | user
  | assistant
  | tool
deriving DecidableEq

/-- The `.value` of each role, as serialized by `to_dict`/`salvar_conversa`. -/
def Role.value : Role → String
  | .system => "system"
  | .user => "user"
  | .assistant => "assistant"
  | .tool => "tool"

/-- `Role(token)`: membership test of the closed enumeration, `none`
modelling the `ValueError` raised on an unrecognized token. -/
def Role.ofValue? (s : String) : Option Role :=
  if s = "system" then some .system
  else if s = "user" then some .user
  else if s = "assistant" then some .assistant
  else if s = "tool" then some .tool
  else none

/-- `@dataclass Mensagem`: one conversation message. -/
structure Mensagem where
  role : Role
  content : String
  timestamp : Nat
  metadata : List (String × String) := []
deriving DecidableEq

/-- `@dataclass Ferramenta`: a named tool; invoking it may fail
(`.error` models a raised exception). -/
structure Ferramenta where
  nome : String
  descricao : String
  func : String → Except String String

/-- One persisted record of `salvar_conversa` / `carregar_conversa`. -/
structure Registro where
  role : String
  content : String
  timestamp : String
deriving DecidableEq

/-- State of `MeuPrimeiroAgente` (the Gemini client handle is external and
carries no orchestration state). The tool dictionary is an association list
whose most recent binding shadows older ones, matching `dict` assignment. -/
structure Agente where
  nome : String
  modelo : String
  temperatura : ℚ
  historico : List Mensagem
  ferramentas : List (String × Ferramenta)
  limite_contexto : Nat

/-- `_validar_temperatura`: accepts exactly the range [0, 1]. -/
def validar_temperatura (valor : ℚ) : Except String ℚ :=
  if 0 ≤ valor ∧ valor ≤ 1 then .ok valor
  else .error "Temperatura deve estar entre 0 e 1"

/-- `adicionar_mensagem`: append a freshly timestamped message. -/
def Agente.adicionar_mensagem (a : Agente) (role : Role) (content : String)
    (now : Nat) : Agente :=
  { a with historico := a.historico ++ [⟨role, content, now, []⟩] }

/-- `__init__`: validates the temperature, then starts the history with the
default system message. `now` is the construction-time clock tick. -/
def Agente.init (nome modelo : String) (temperatura : ℚ) (now : Nat) :
    Except String Agente :=
  match validar_temperatura temperatura with
  | .error e => .error e
  | .ok t =>
    let a : Agente :=
      { nome := nome, modelo := modelo, temperatura := t,
        historico := [], ferramentas := [], limite_contexto := 4096 }
    .ok (a.adicionar_mensagem Role.system
      ("Você é " ++ nome ++ ", um assistente de IA útil e amigável.") now)

/-- `registrar_ferramenta`: insert/overwrite the binding for the tool's
name (the newest binding shadows any older one, as in a Python dict). -/
def Agente.registrar_ferramenta (a : Agente) (f : Ferramenta) : Agente :=
  { a with ferramentas := (f.nome, f) :: a.ferramentas }

/-- Outcome of the tool-selection step of `processar_mensagem`
(lines 157–173 of the source): the tool-context string, the log of tool
invocations `(tool name, argument)`, and — for the unguarded search
branch — an exception that escapes the step. -/
structure ToolStep where
  contexto : String
  invocacoes : List (String × String)
  excecao : Option String
deriving DecidableEq

/-- The keyword tool dispatch of `processar_mensagem`: a compute branch
guarded by `try/except`, an `elif` search branch with no guard, else no
context.  Reads only the registry, never the history. -/
def Agente.selecionar_ferramenta (a : Agente) (mensagem : String)
    (usar_ferramentas : Bool) : ToolStep :=
  if usar_ferramentas then
    if pyContains (pyLower mensagem) "calcular" then
      match List.lookup "calcular" a.ferramentas with
      | some f =>
        match f.func mensagem with
        | .ok resultado =>
          ⟨"\n[SISTEMA] O usuário pediu um cálculo. Resultado da ferramenta: "
             ++ resultado ++ ". Use isso para responder.",
           [("calcular", mensagem)], none⟩
        | .error e =>
          ⟨"\n[SISTEMA] Erro ao calcular: " ++ e, [("calcular", mensagem)], none⟩
      | none => ⟨"", [], none⟩
    else if pyContains (pyLower mensagem) "pesquisar" then
      match List.lookup "buscar" a.ferramentas with
      | some f =>
        let termos := pyStrip (pyReplace mensagem "pesquisar" "")
        match f.func termos with
        | .ok resultado =>
          ⟨"\n[SISTEMA] Resultado da busca: " ++ resultado
             ++ ". Use isso para responder.",
           [("buscar", termos)], none⟩
        | .error e => ⟨"", [("buscar", termos)], some e⟩
      | none => ⟨"", [], none⟩
    else ⟨"", [], none⟩
  else ⟨"", [], none⟩

/-- The history part of the prompt: `"<role>: <content>\n"` for every
message, in history order. -/
def prompt_historico (hist : List Mensagem) : String :=
  hist.foldl (fun acc msg => acc ++ (msg.role.value ++ ": " ++ msg.content ++ "\n")) ""

/-- Result of one call of `processar_mensagem`: the new agent state, the
returned string (or the exception that propagated out of the call), and the
log of tool invocations performed. -/
structure TurnOutput where
  agente : Agente
  resultado : Except String String
  invocacoes : List (String × String)

/-- `processar_mensagem`: append the user message, run tool selection,
assemble the prompt, call the backend (recovering a backend failure into a
formatted error reply), append the assistant message.  A search-branch tool
exception escapes after the user message was appended. -/
def Agente.processar_mensagem (a : Agente) (mensagem : String)
    (usar_ferramentas : Bool) (backend : String → Except String String)
    (now : Nat) : TurnOutput :=
  let a1 := a.adicionar_mensagem Role.user mensagem now
  let passo := a1.selecionar_ferramenta mensagem usar_ferramentas
  match passo.excecao with
  | some e => ⟨a1, .error e, passo.invocacoes⟩
  | none =>
    let prompt := prompt_historico a1.historico ++ passo.contexto ++ "\nassistant:"
    let resposta_texto :=
      match backend prompt with
      | .ok texto => texto
      | .error e => "Erro ao contatar a IA: " ++ e
    ⟨a1.adicionar_mensagem Role.assistant resposta_texto now, .ok resposta_texto,
     passo.invocacoes⟩

/-- `salvar_conversa`: serialize the history, in order, to records
`{role, content, timestamp}` (file I/O itself is external glue). -/
def Agente.salvar_conversa (a : Agente) : List Registro :=
  a.historico.map fun msg => ⟨msg.role.value, msg.content, isoformat msg.timestamp⟩

/-- Reconstruction of one message on import: `Role(item["role"])` then
`datetime.fromisoformat(item["timestamp"])`, either failure raising. -/
def decodificar_registro (item : Registro) : Except String Mensagem :=
  match Role.ofValue? item.role with
  | none => .error ("'" ++ item.role ++ "' is not a valid Role")
  | some r =>
    match fromisoformat item.timestamp with
    | none => .error ("Invalid isoformat string: '" ++ item.timestamp ++ "'")
    | some ts => .ok ⟨r, item.content, ts, []⟩

/-- The import loop of `carregar_conversa`: appends decoded messages one by
one; a decode failure stops the loop, keeping what was already appended. -/
def carregar_loop (acc : List Mensagem) : List Registro → List Mensagem × Option String
  | [] => (acc, none)
  | item :: rest =>
    match decodificar_registro item with
    | .ok msg => carregar_loop (acc ++ [msg]) rest
    | .error e => (acc, some e)

/-- `carregar_conversa`: clears the history (`self._historico = []`) and
refills it from the records; the second component is the exception raised
on a malformed record, if any. -/
def Agente.carregar_conversa (a : Agente) (dados : List Registro) :
    Agente × Option String :=
  let r := carregar_loop [] dados
  ({ a with historico := r.1 }, r.2)

/-! ### Auxiliary lemmas: the timestamp codec and record decoding -/

theorem charDigit_digitChar {d : Nat} (h : d < 10) :
    charDigit (digitChar d) = d := by
  interval_cases d <;> rfl

theorem isDigitChar_digitChar {d : Nat} (h : d < 10) :
    isDigitChar (digitChar d) = true := by
  interval_cases d <;> rfl

theorem digitsRev_lt : ∀ fuel n d, d ∈ digitsRev fuel n → d < 10 := by
  intro fuel
  induction fuel with
  | zero => intro n d hd; simp [digitsRev] at hd
  | succ fuel ih =>
    intro n d hd
    by_cases hn : n = 0
    · simp [digitsRev, hn] at hd
    · simp only [digitsRev, if_neg hn, List.mem_cons] at hd
      rcases hd with h | h
      · subst h; exact Nat.mod_lt _ (by norm_num)
      · exact ih _ _ h

theorem digitsRev_ne_nil {fuel n : Nat} (hn : n ≠ 0) (hf : fuel ≠ 0) :
    digitsRev fuel n ≠ [] := by
  cases fuel with
  | zero => exact absurd rfl hf
  | succ fuel => simp [digitsRev, hn]

theorem foldl_digitsRev : ∀ fuel n acc, n ≤ fuel →
    ((digitsRev fuel n).reverse).foldl (fun a d => a * 10 + d) acc
      = acc * 10 ^ (digitsRev fuel n).length + n := by
  intro fuel
  induction fuel with
  | zero =>
    intro n acc h
    have : n = 0 := Nat.le_zero.mp h
    subst this
    simp [digitsRev]
  | succ fuel ih =>
    intro n acc h
    by_cases hn : n = 0
    · subst hn; simp [digitsRev]
    · have hdiv : n / 10 ≤ fuel := by
        have := Nat.div_lt_self (Nat.pos_of_ne_zero hn) (by norm_num : 1 < 10)
        omega
      simp only [digitsRev, if_neg hn, List.reverse_cons, List.foldl_append,
        List.foldl_cons, List.foldl_nil, List.length_cons]
      rw [ih (n / 10) acc hdiv]
      have hmod := Nat.div_add_mod n 10
      rw [pow_succ]
      ring_nf
      omega

theorem foldl_map_digitChar : ∀ (l : List Nat) (acc : Nat), (∀ d ∈ l, d < 10) →
    (l.map digitChar).foldl (fun n c => n * 10 + charDigit c) acc
      = l.foldl (fun a d => a * 10 + d) acc := by
  intro l
  induction l with
  | nil => intro acc _; rfl
  | cons d l ih =>
    intro acc h
    simp only [List.map_cons, List.foldl_cons]
    rw [charDigit_digitChar (h d (by simp))]
    exact ih _ (fun x hx => h x (by simp [hx]))

theorem fromisoformat_isoformat (t : Nat) : fromisoformat (isoformat t) = some t := by
  by_cases ht : t = 0
  · subst ht; decide
  · unfold isoformat
    rw [if_neg ht]
    have hrev_ne : (digitsRev t t).reverse ≠ [] := by
      simpa using digitsRev_ne_nil ht ht
    have hmem : ∀ d ∈ (digitsRev t t).reverse, d < 10 := by
      intro d hd
      exact digitsRev_lt t t d (List.mem_reverse.mp hd)
    unfold fromisoformat
    have htl : (String.mk ((digitsRev t t).reverse.map digitChar)).toList
        = (digitsRev t t).reverse.map digitChar := rfl
    rw [htl]
    have hempty : ((digitsRev t t).reverse.map digitChar).isEmpty = false := by
      rw [List.isEmpty_eq_false_iff_exists_mem]
      rcases List.exists_mem_of_ne_nil _ hrev_ne with ⟨d, hd⟩
      exact ⟨digitChar d, List.mem_map_of_mem _ hd⟩
    have hall : ((digitsRev t t).reverse.map digitChar).all isDigitChar = true := by
      rw [List.all_eq_true]
      intro c hc
      rcases List.mem_map.mp hc with ⟨d, hd, rfl⟩
      exact isDigitChar_digitChar (hmem d hd)
    rw [hempty, hall]
    simp only [Bool.not_false, Bool.true_and, if_pos]
    rw [foldl_map_digitChar _ 0 hmem, foldl_digitsRev t t 0 le_rfl]
    simp

theorem ofValue?_value (r : Role) : Role.ofValue? r.value = some r := by
  cases r <;> decide

theorem decodificar_encode (m : Mensagem) (h : m.metadata = []) :
    decodificar_registro ⟨m.role.value, m.content, isoformat m.timestamp⟩ = .ok m := by
  obtain ⟨ro, co, ts, md⟩ := m
  simp only at h
  subst h
  simp [decodificar_registro, ofValue?_value, fromisoformat_isoformat]

theorem carregar_loop_encode : ∀ (hist acc : List Mensagem),
    (∀ m ∈ hist, m.metadata = []) →
    carregar_loop acc
        (hist.map fun msg => ⟨msg.role.value, msg.content, isoformat msg.timestamp⟩)
      = (acc ++ hist, none) := by
  intro hist
  induction hist with
  | nil => intro acc _; simp [carregar_loop]
  | cons m hist ih =>
    intro acc h
    simp only [List.map_cons, carregar_loop, decodificar_encode m (h m (by simp))]
    rw [ih (acc ++ [m]) (fun x hx => h x (by simp [hx]))]
    simp

theorem carregar_loop_ok : ∀ (pre : List Registro) (l : List Registro)
    (acc : List Mensagem),
    (∀ x ∈ pre, (decodificar_registro x).toOption.isSome) →
    carregar_loop acc (pre ++ l)
      = carregar_loop (acc ++ pre.filterMap fun x => (decodificar_registro x).toOption) l := by
  intro pre
  induction pre with
  | nil => intro l acc _; simp
  | cons x pre ih =>
    intro l acc h
    have hx := h x (by simp)
    rcases hdx : decodificar_registro x with e | m
    · rw [hdx] at hx; simp [Except.toOption] at hx
    · simp only [List.cons_append, carregar_loop, hdx]
      rw [List.append_eq, ih l (acc ++ [m]) (fun y hy => h y (by simp [hy]))]
      simp [List.filterMap_cons, hdx, Except.toOption]

/-- Exemplary agent state shared by the concrete witnesses below. -/
def agenteExemplo : Agente :=
  { nome := "Bot", modelo := "gemini-2.0-flash", temperatura := 0,
    historico :=
      [⟨Role.system, "Você é Bot, um assistente de IA útil e amigável.", 0, []⟩,
       ⟨Role.user, "Olá", 1, []⟩,
       ⟨Role.assistant, "Oi!", 2, []⟩],
    ferramentas := [], limite_contexto := 4096 }

/-! ### The claims -/

/-- C3: round-trip persistence — importing the records produced by exporting
an agent's history restores exactly that history (role, content and
timestamp of every message, in order), with no decode failure.  The
hypothesis restricts to histories whose messages carry the default (empty)
metadata, which is every history this program can build: export drops the
metadata field, so it is the only field not serialized. -/
theorem round_trip_persistencia (a : Agente)
    (h : ∀ m ∈ a.historico, m.metadata = []) :
    a.carregar_conversa a.salvar_conversa = (a, none) := by
  unfold Agente.carregar_conversa Agente.salvar_conversa
  rw [carregar_loop_encode a.historico [] h]
  simp

/-- Witness for C3 at a concrete three-message history. -/
theorem round_trip_persistencia_witness :
    agenteExemplo.carregar_conversa agenteExemplo.salvar_conversa
      = (agenteExemplo, none) :=
  round_trip_persistencia agenteExemplo (by decide)

/-- C1, counterexample: import is NOT atomic.  An agent constructed with the
single initial system message imports two records, the second of which has
the unrecognized role `"narrator"`.  The import raises (`isSome`), yet the
history afterwards is neither the old history nor the full replacement: it
is the one-element decoded prefix `[user "oi"]`. -/
theorem importacao_nao_atomica_contraexemplo :
    (Agente.init "Bot" "gemini-2.0-flash" 0 0).toOption.map (fun a =>
        (let r := a.carregar_conversa
            [⟨"user", "oi", isoformat 1⟩, ⟨"narrator", "x", isoformat 2⟩]
         (r.2.isSome, decide (r.1.historico = a.historico), r.1.historico)))
      = some (true, false, [⟨Role.user, "oi", 1, []⟩]) := by
  decide

/-- C1, amended: when import fails partway (first failing record after a
prefix of decodable records), the prior history has already been discarded
and the history afterwards equals exactly the decoded prefix — a partial
replacement, not the untouched prior history. -/
theorem importacao_prefixo_parcial (a : Agente) (pre : List Registro)
    (item : Registro) (rest : List Registro) (e : String)
    (hpre : ∀ x ∈ pre, (decodificar_registro x).toOption.isSome)
    (hitem : decodificar_registro item = .error e) :
    (a.carregar_conversa (pre ++ item :: rest)).2 = some e ∧
    (a.carregar_conversa (pre ++ item :: rest)).1.historico
      = pre.filterMap fun x => (decodificar_registro x).toOption := by
  unfold Agente.carregar_conversa
  rw [carregar_loop_ok pre (item :: rest) [] hpre]
  simp [carregar_loop, hitem]

/-- Witness for the amended C1: a valid `user` record followed by a record
with role `"narrator"` and a trailing record; the loop stops at the bad
record, keeping only the decoded prefix. -/
theorem importacao_prefixo_parcial_witness :
    (agenteExemplo.carregar_conversa
        [⟨"user", "oi", isoformat 1⟩, ⟨"narrator", "x", isoformat 2⟩,
         ⟨"tool", "y", isoformat 3⟩]).2
      = some ("'" ++ "narrator" ++ "' is not a valid Role") ∧
    (agenteExemplo.carregar_conversa
        [⟨"user", "oi", isoformat 1⟩, ⟨"narrator", "x", isoformat 2⟩,
         ⟨"tool", "y", isoformat 3⟩]).1.historico
      = [⟨"user", "oi", isoformat 1⟩].filterMap
          fun x => (decodificar_registro x).toOption :=
  importacao_prefixo_parcial agenteExemplo
    [⟨"user", "oi", isoformat 1⟩] ⟨"narrator", "x", isoformat 2⟩
    [⟨"tool", "y", isoformat 3⟩] ("'" ++ "narrator" ++ "' is not a valid Role")
    (by decide) rfl

theorem carregar_loop_acc_le : ∀ (l : List Registro) (acc : List Mensagem),
    ∃ tail, (carregar_loop acc l).1 = acc ++ tail := by
  intro l
  induction l with
  | nil => intro acc; exact ⟨[], by simp [carregar_loop]⟩
  | cons item rest ih =>
    intro acc
    cases hd : decodificar_registro item with
    | error e => exact ⟨[], by simp [carregar_loop, hd]⟩
    | ok m =>
      obtain ⟨tail, ht⟩ := ih (acc ++ [m])
      exact ⟨m :: tail, by simp [carregar_loop, hd, ht]⟩

/-- Agent state produced by `Agente.init "Bot" "gemini-2.0-flash" 0 0`. -/
def agente0 : Agente :=
  { nome := "Bot", modelo := "gemini-2.0-flash", temperatura := 0,
    historico :=
      [⟨Role.system, "Você é Bot, um assistente de IA útil e amigável.", 0, []⟩],
    ferramentas := [], limite_contexto := 4096 }

/-- C7, counterexample: the non-emptiness invariant is not preserved by
import.  A freshly constructed agent (history length 1) imports the empty
record list; the import completes without error and leaves the history
empty (length 0). -/
theorem historico_nao_vazio_contraexemplo :
    (Agente.init "Bot" "gemini-2.0-flash" 0 0).toOption.map (fun a =>
        (let r := a.carregar_conversa []
         ((r.2).isNone, r.1.historico.length, a.historico.length)))
      = some (true, 0, 1) := by
  decide

/-- C7, amended: after construction the history is exactly the one-element
initial system message (hence non-empty); appending and turn processing
keep it non-empty and tool registration does not touch it; import, however,
replaces it by the decoded records, so it preserves non-emptiness only when
the first record decodes successfully — importing an empty list (or a list
whose first record is malformed) leaves the history empty, and import need
not keep the initial system message first. -/
theorem historico_nao_vazio :
    (∀ nome modelo t now a, Agente.init nome modelo t now = .ok a →
      a.historico = [⟨Role.system,
        "Você é " ++ nome ++ ", um assistente de IA útil e amigável.", now, []⟩]) ∧
    (∀ (a : Agente) role content now,
      (a.adicionar_mensagem role content now).historico ≠ []) ∧
    (∀ (a : Agente) f, (a.registrar_ferramenta f).historico = a.historico) ∧
    (∀ (a : Agente) msg uf backend now,
      (a.processar_mensagem msg uf backend now).agente.historico ≠ []) ∧
    (∀ (a : Agente) item rest msg, decodificar_registro item = .ok msg →
      (a.carregar_conversa (item :: rest)).1.historico ≠ []) := by
  refine ⟨?_, ?_, ?_, ?_, ?_⟩
  · intro nome modelo t now a h
    unfold Agente.init at h
    cases hv : validar_temperatura t with
    | error e => rw [hv] at h; exact absurd h (by simp)
    | ok t' =>
      rw [hv] at h
      simp only [Except.ok.injEq] at h
      rw [← h]
      rfl
  · intro a role content now
    simp [Agente.adicionar_mensagem]
  · intro a f
    rfl
  · intro a msg uf backend now
    simp only [Agente.processar_mensagem]
    split
    · simp [Agente.adicionar_mensagem]
    · simp [Agente.adicionar_mensagem]
  · intro a item rest msg h
    unfold Agente.carregar_conversa
    simp only [carregar_loop, h]
    obtain ⟨tail, ht⟩ := carregar_loop_acc_le rest [msg]
    simp [ht]

/-- Witness for the amended C7 at concrete states and inputs. -/
theorem historico_nao_vazio_witness :
    agente0.historico = [⟨Role.system,
      "Você é " ++ "Bot" ++ ", um assistente de IA útil e amigável.", 0, []⟩] ∧
    (agenteExemplo.adicionar_mensagem Role.user "oi" 5).historico ≠ [] ∧
    (agenteExemplo.registrar_ferramenta
        ⟨"buscar", "Busca informações na web", fun t => .ok t⟩).historico
      = agenteExemplo.historico ∧
    (agenteExemplo.processar_mensagem "Olá" true (fun _ => .ok "resp") 7).agente.historico ≠ [] ∧
    (agenteExemplo.carregar_conversa [⟨"user", "oi", isoformat 1⟩]).1.historico ≠ [] :=
  ⟨historico_nao_vazio.1 "Bot" "gemini-2.0-flash" 0 0 agente0 rfl,
   historico_nao_vazio.2.1 agenteExemplo Role.user "oi" 5,
   historico_nao_vazio.2.2.1 agenteExemplo _,
   historico_nao_vazio.2.2.2.1 agenteExemplo "Olá" true (fun _ => .ok "resp") 7,
   historico_nao_vazio.2.2.2.2 agenteExemplo ⟨"user", "oi", isoformat 1⟩ []
     ⟨Role.user, "oi", 1, []⟩ rfl⟩

/-- C9: temperature validation — construction succeeds exactly for
temperatures in [0, 1], storing the given value unchanged, and fails with
the validation error otherwise. -/
theorem validacao_temperatura (nome modelo : String) (t : ℚ) (now : Nat) :
    (0 ≤ t ∧ t ≤ 1 →
      ∃ a, Agente.init nome modelo t now = .ok a ∧ a.temperatura = t) ∧
    (¬(0 ≤ t ∧ t ≤ 1) →
      Agente.init nome modelo t now = .error "Temperatura deve estar entre 0 e 1") := by
  constructor
  · intro h
    unfold Agente.init validar_temperatura
    rw [if_pos h]
    exact ⟨_, rfl, rfl⟩
  · intro h
    unfold Agente.init validar_temperatura
    rw [if_neg h]

/-- Witness for C9: the boundary temperatures 0 and 1 are accepted and
stored, while -0.1 and 1.1 are rejected with the validation error. -/
theorem validacao_temperatura_witness :
    (∃ a, Agente.init "Bot" "gemini-2.0-flash" 0 0 = .ok a ∧ a.temperatura = 0) ∧
    (∃ a, Agente.init "Bot" "gemini-2.0-flash" 1 0 = .ok a ∧ a.temperatura = 1) ∧
    Agente.init "Bot" "gemini-2.0-flash" ((-1 : ℚ) / 10) 0
      = .error "Temperatura deve estar entre 0 e 1" ∧
    Agente.init "Bot" "gemini-2.0-flash" ((11 : ℚ) / 10) 0
      = .error "Temperatura deve estar entre 0 e 1" :=
  ⟨(validacao_temperatura "Bot" "gemini-2.0-flash" 0 0).1 (by norm_num),
   (validacao_temperatura "Bot" "gemini-2.0-flash" 1 0).1 (by norm_num),
   (validacao_temperatura "Bot" "gemini-2.0-flash" ((-1 : ℚ) / 10) 0).2 (by norm_num),
   (validacao_temperatura "Bot" "gemini-2.0-flash" ((11 : ℚ) / 10) 0).2 (by norm_num)⟩

/-- C8: whenever `processar_mensagem` completes by returning a string, the
new history is exactly the old history with the user message and then the
assistant message (carrying the returned string) appended — nothing else is
added, removed or modified, so the length grows by exactly 2. -/
theorem crescimento_historico (a : Agente) (msg : String) (uf : Bool)
    (backend : String → Except String String) (now : Nat) (r : String)
    (h : (a.processar_mensagem msg uf backend now).resultado = .ok r) :
    (a.processar_mensagem msg uf backend now).agente.historico
      = a.historico ++ [⟨Role.user, msg, now, []⟩, ⟨Role.assistant, r, now, []⟩] ∧
    (a.processar_mensagem msg uf backend now).agente.historico.length
      = a.historico.length + 2 := by
  simp only [Agente.processar_mensagem] at h ⊢
  split at h
  · exact absurd h (by simp)
  · simp only [Except.ok.injEq] at h
    subst h
    constructor
    · simp [Agente.adicionar_mensagem]
    · simp [Agente.adicionar_mensagem]

/-- Witness for C8 at a concrete turn whose backend answers "resp". -/
theorem crescimento_historico_witness :
    (agenteExemplo.processar_mensagem "Olá" true (fun _ => .ok "resp") 7).agente.historico
      = agenteExemplo.historico
        ++ [⟨Role.user, "Olá", 7, []⟩, ⟨Role.assistant, "resp", 7, []⟩] ∧
    (agenteExemplo.processar_mensagem "Olá" true (fun _ => .ok "resp") 7).agente.historico.length
      = agenteExemplo.historico.length + 2 :=
  crescimento_historico agenteExemplo "Olá" true (fun _ => .ok "resp") 7 "resp" rfl

theorem selecionar_adicionar (a : Agente) (role : Role) (content : String)
    (now : Nat) (msg : String) (uf : Bool) :
    (a.adicionar_mensagem role content now).selecionar_ferramenta msg uf
      = a.selecionar_ferramenta msg uf := rfl

/-- C4: generation soft-fail — if the tool-selection step raises no
exception and the backend fails on every prompt, the turn still completes:
the call returns the formatted error string and appends it as the assistant
message (after the user message), never raising past the generation
boundary. -/
theorem geracao_soft_fail (a : Agente) (msg : String) (uf : Bool)
    (backend : String → Except String String) (now : Nat)
    (hferr : (a.selecionar_ferramenta msg uf).excecao = none)
    (hbad : ∀ p, ∃ e, backend p = .error e) :
    ∃ e, (a.processar_mensagem msg uf backend now).resultado
        = .ok ("Erro ao contatar a IA: " ++ e) ∧
      (a.processar_mensagem msg uf backend now).agente.historico
        = a.historico ++ [⟨Role.user, msg, now, []⟩,
            ⟨Role.assistant, "Erro ao contatar a IA: " ++ e, now, []⟩] := by
  simp only [Agente.processar_mensagem, selecionar_adicionar, hferr]
  obtain ⟨e, he⟩ := hbad (prompt_historico (a.adicionar_mensagem Role.user msg now).historico
    ++ (a.selecionar_ferramenta msg uf).contexto ++ "\nassistant:")
  rw [he]
  exact ⟨e, rfl, by simp [Agente.adicionar_mensagem]⟩

/-- Witness for C4: an always-failing backend on a plain message. -/
theorem geracao_soft_fail_witness :
    ∃ e, (agenteExemplo.processar_mensagem "Olá" true (fun _ => .error "offline") 9).resultado
        = .ok ("Erro ao contatar a IA: " ++ e) ∧
      (agenteExemplo.processar_mensagem "Olá" true (fun _ => .error "offline") 9).agente.historico
        = agenteExemplo.historico ++ [⟨Role.user, "Olá", 9, []⟩,
            ⟨Role.assistant, "Erro ao contatar a IA: " ++ e, 9, []⟩] :=
  geracao_soft_fail agenteExemplo "Olá" true (fun _ => .error "offline") 9
    (by decide) (fun p => ⟨"offline", rfl⟩)

/-- C10: when `processar_mensagem` is called with `usar_ferramentas = false`
no tool is invoked and no tool context is produced: the backend receives
exactly the history prompt (including the just-appended user message)
followed by the trailing assistant cue, the turn completes, and the history
gains the user and assistant messages. -/
theorem ferramentas_desligadas (a : Agente) (msg : String)
    (backend : String → Except String String) (now : Nat) :
    (a.processar_mensagem msg false backend now).invocacoes = [] ∧
    ∃ r, (a.processar_mensagem msg false backend now).resultado = .ok r ∧
      (a.processar_mensagem msg false backend now).agente.historico
        = a.historico ++ [⟨Role.user, msg, now, []⟩, ⟨Role.assistant, r, now, []⟩] ∧
      (backend (prompt_historico (a.historico ++ [⟨Role.user, msg, now, []⟩])
            ++ "\nassistant:") = .ok r ∨
        ∃ e, backend (prompt_historico (a.historico ++ [⟨Role.user, msg, now, []⟩])
              ++ "\nassistant:") = .error e ∧
          r = "Erro ao contatar a IA: " ++ e) := by
  have hsel : a.selecionar_ferramenta msg false = ⟨"", [], none⟩ := rfl
  simp only [Agente.processar_mensagem, selecionar_adicionar, hsel]
  simp only [Agente.adicionar_mensagem, String.append_empty]
  cases hb : backend (prompt_historico (a.historico ++ [⟨Role.user, msg, now, []⟩])
      ++ "\nassistant:") with
  | ok t => exact ⟨trivial, t, rfl, by simp, Or.inl rfl⟩
  | error e => exact ⟨trivial, _, rfl, by simp, Or.inr ⟨e, rfl, rfl⟩⟩

theorem invocacoes_processar (a : Agente) (msg : String) (uf : Bool)
    (backend : String → Except String String) (now : Nat) :
    (a.processar_mensagem msg uf backend now).invocacoes
      = (a.selecionar_ferramenta msg uf).invocacoes := by
  simp only [Agente.processar_mensagem, selecionar_adicionar]
  split <;> rfl

/-- Agent whose registered tools both fail when invoked, used by witnesses. -/
def agenteFalho : Agente :=
  { nome := "Bot", modelo := "gemini-2.0-flash", temperatura := 0,
    historico :=
      [⟨Role.system, "Você é Bot, um assistente de IA útil e amigável.", 0, []⟩],
    ferramentas :=
      [("calcular", ⟨"calcular", "Calcula expressões matemáticas",
          fun _ => .error "boom"⟩),
       ("buscar", ⟨"buscar", "Busca informações na web",
          fun _ => .error "rede fora"⟩)],
    limite_contexto := 4096 }

/-- C5: asymmetric tool-failure handling.  A failing `calcular` tool is
recovered locally: its error is embedded into the system-context string,
the turn continues to generation (the backend receives the prompt carrying
that error context) and completes with user and assistant messages
appended.  A failing `buscar` tool is not recovered: the error propagates
out of `processar_mensagem` and only the user message was appended. -/
theorem falha_ferramenta_assimetrica :
    (∀ (a : Agente) (msg : String) (backend : String → Except String String)
        (now : Nat) (f : Ferramenta) (e : String),
      pyContains (pyLower msg) "calcular" = true →
      List.lookup "calcular" a.ferramentas = some f →
      f.func msg = .error e →
      ∃ r, (a.processar_mensagem msg true backend now).resultado = .ok r ∧
        (a.processar_mensagem msg true backend now).agente.historico
          = a.historico ++ [⟨Role.user, msg, now, []⟩, ⟨Role.assistant, r, now, []⟩] ∧
        (backend (prompt_historico (a.historico ++ [⟨Role.user, msg, now, []⟩])
              ++ ("\n[SISTEMA] Erro ao calcular: " ++ e) ++ "\nassistant:") = .ok r ∨
          ∃ e2, backend (prompt_historico (a.historico ++ [⟨Role.user, msg, now, []⟩])
                ++ ("\n[SISTEMA] Erro ao calcular: " ++ e) ++ "\nassistant:") = .error e2 ∧
            r = "Erro ao contatar a IA: " ++ e2)) ∧
    (∀ (a : Agente) (msg : String) (backend : String → Except String String)
        (now : Nat) (f : Ferramenta) (e : String),
      pyContains (pyLower msg) "calcular" = false →
      pyContains (pyLower msg) "pesquisar" = true →
      List.lookup "buscar" a.ferramentas = some f →
      f.func (pyStrip (pyReplace msg "pesquisar" "")) = .error e →
      (a.processar_mensagem msg true backend now).resultado = .error e ∧
      (a.processar_mensagem msg true backend now).agente.historico
        = a.historico ++ [⟨Role.user, msg, now, []⟩]) := by
  constructor
  · intro a msg backend now f e hc hl hf
    have hsel : a.selecionar_ferramenta msg true
        = ⟨"\n[SISTEMA] Erro ao calcular: " ++ e, [("calcular", msg)], none⟩ := by
      simp [Agente.selecionar_ferramenta, hc, hl, hf]
    simp only [Agente.processar_mensagem, selecionar_adicionar, hsel]
    simp only [Agente.adicionar_mensagem]
    cases hb : backend (prompt_historico
        (a.historico ++ [⟨Role.user, msg, now, []⟩])
        ++ ("\n[SISTEMA] Erro ao calcular: " ++ e) ++ "\nassistant:") with
    | ok t => exact ⟨t, rfl, by simp, Or.inl rfl⟩
    | error e2 => exact ⟨_, rfl, by simp, Or.inr ⟨e2, rfl, rfl⟩⟩
  · intro a msg backend now f e hc hp hl hf
    have hsel : a.selecionar_ferramenta msg true
        = ⟨"", [("buscar", pyStrip (pyReplace msg "pesquisar" ""))], some e⟩ := by
      simp [Agente.selecionar_ferramenta, hc, hp, hl, hf]
    simp only [Agente.processar_mensagem, selecionar_adicionar, hsel]
    exact ⟨trivial, by simp [Agente.adicionar_mensagem]⟩

/-- Witness for C5: one turn on each failing branch of `agenteFalho`. -/
theorem falha_ferramenta_assimetrica_witness :
    (∃ r, (agenteFalho.processar_mensagem "calcular 2+2" true (fun _ => .ok "resp") 3).resultado
          = .ok r ∧
        (agenteFalho.processar_mensagem "calcular 2+2" true (fun _ => .ok "resp") 3).agente.historico
          = agenteFalho.historico
            ++ [⟨Role.user, "calcular 2+2", 3, []⟩, ⟨Role.assistant, r, 3, []⟩] ∧
        ((fun _ => (.ok "resp" : Except String String))
            (prompt_historico (agenteFalho.historico ++ [⟨Role.user, "calcular 2+2", 3, []⟩])
              ++ ("\n[SISTEMA] Erro ao calcular: " ++ "boom") ++ "\nassistant:") = .ok r ∨
          ∃ e2, (fun _ => (.ok "resp" : Except String String))
                (prompt_historico (agenteFalho.historico ++ [⟨Role.user, "calcular 2+2", 3, []⟩])
                  ++ ("\n[SISTEMA] Erro ao calcular: " ++ "boom") ++ "\nassistant:") = .error e2 ∧
            r = "Erro ao contatar a IA: " ++ e2)) ∧
    ((agenteFalho.processar_mensagem "pesquisar gatos" true (fun _ => .ok "resp") 4).resultado
        = .error "rede fora" ∧
      (agenteFalho.processar_mensagem "pesquisar gatos" true (fun _ => .ok "resp") 4).agente.historico
        = agenteFalho.historico ++ [⟨Role.user, "pesquisar gatos", 4, []⟩]) :=
  ⟨falha_ferramenta_assimetrica.1 agenteFalho "calcular 2+2" (fun _ => .ok "resp") 3
      ⟨"calcular", "Calcula expressões matemáticas", fun _ => .error "boom"⟩ "boom"
      (by decide) rfl rfl,
   falha_ferramenta_assimetrica.2 agenteFalho "pesquisar gatos" (fun _ => .ok "resp") 4
      ⟨"buscar", "Busca informações na web", fun _ => .error "rede fora"⟩ "rede fora"
      (by decide) (by decide) rfl rfl⟩

/-- Agent with a succeeding `calcular` tool and a succeeding `buscar` tool,
used by the C6 witness. -/
def agenteDuplo : Agente :=
  { nome := "Bot", modelo := "gemini-2.0-flash", temperatura := 0,
    historico :=
      [⟨Role.system, "Você é Bot, um assistente de IA útil e amigável.", 0, []⟩],
    ferramentas :=
      [("calcular", ⟨"calcular", "Calcula expressões matemáticas",
          fun _ => .ok "17"⟩),
       ("buscar", ⟨"buscar", "Busca informações na web",
          fun termo => .ok ("Resultados da busca por '" ++ termo ++ "'")⟩)],
    limite_contexto := 4096 }

/-- C6: tool-selection mutual exclusion — on a message matching both the
compute and the search trigger, the search tool is never invoked; the
compute tool is invoked (with the whole message) exactly when it is
registered, and when it succeeds the produced context is the compute
branch's context string. -/
theorem exclusao_mutua (a : Agente) (msg : String)
    (backend : String → Except String String) (now : Nat)
    (hc : pyContains (pyLower msg) "calcular" = true)
    (hp : pyContains (pyLower msg) "pesquisar" = true) :
    ((a.processar_mensagem msg true backend now).invocacoes.filter
        fun p => p.1 == "buscar") = [] ∧
    (∀ f, List.lookup "calcular" a.ferramentas = some f →
      (a.processar_mensagem msg true backend now).invocacoes = [("calcular", msg)]) ∧
    (List.lookup "calcular" a.ferramentas = none →
      (a.processar_mensagem msg true backend now).invocacoes = []) ∧
    (∀ f r, List.lookup "calcular" a.ferramentas = some f → f.func msg = .ok r →
      (a.selecionar_ferramenta msg true).contexto
        = "\n[SISTEMA] O usuário pediu um cálculo. Resultado da ferramenta: "
            ++ r ++ ". Use isso para responder.") := by
  refine ⟨?_, ?_, ?_, ?_⟩
  · rw [invocacoes_processar]
    cases hl : List.lookup "calcular" a.ferramentas with
    | none => simp [Agente.selecionar_ferramenta, hc, hl]
    | some f =>
      cases hf : f.func msg <;>
        simp [Agente.selecionar_ferramenta, hc, hl, hf, List.filter]
  · intro f hl
    rw [invocacoes_processar]
    cases hf : f.func msg <;> simp [Agente.selecionar_ferramenta, hc, hl, hf]
  · intro hl
    rw [invocacoes_processar]
    simp [Agente.selecionar_ferramenta, hc, hl]
  · intro f r hl hf
    simp [Agente.selecionar_ferramenta, hc, hl, hf]

/-- Witness for C6 on a message containing both trigger words, against an
agent with both tools registered and one with none. -/
theorem exclusao_mutua_witness :
    ((agenteDuplo.processar_mensagem "calcular e pesquisar tudo" true
        (fun _ => .ok "resp") 3).invocacoes.filter fun p => p.1 == "buscar") = [] ∧
    (agenteDuplo.processar_mensagem "calcular e pesquisar tudo" true
        (fun _ => .ok "resp") 3).invocacoes = [("calcular", "calcular e pesquisar tudo")] ∧
    (agenteExemplo.processar_mensagem "calcular e pesquisar tudo" true
        (fun _ => .ok "resp") 3).invocacoes = [] ∧
    (agenteDuplo.selecionar_ferramenta "calcular e pesquisar tudo" true).contexto
      = "\n[SISTEMA] O usuário pediu um cálculo. Resultado da ferramenta: "
          ++ "17" ++ ". Use isso para responder." :=
  ⟨(exclusao_mutua agenteDuplo "calcular e pesquisar tudo" (fun _ => .ok "resp") 3
      (by decide) (by decide)).1,
   (exclusao_mutua agenteDuplo "calcular e pesquisar tudo" (fun _ => .ok "resp") 3
      (by decide) (by decide)).2.1
     ⟨"calcular", "Calcula expressões matemáticas", fun _ => .ok "17"⟩ rfl,
   (exclusao_mutua agenteExemplo "calcular e pesquisar tudo" (fun _ => .ok "resp") 3
      (by decide) (by decide)).2.2.1 rfl,
   (exclusao_mutua agenteDuplo "calcular e pesquisar tudo" (fun _ => .ok "resp") 3
      (by decide) (by decide)).2.2.2
     ⟨"calcular", "Calcula expressões matemáticas", fun _ => .ok "17"⟩ "17" rfl rfl⟩

/-- C2, counterexample: the search trigger is matched case-insensitively but
stripped case-sensitively.  With a registered search tool and the message
`"Pesquisar gatos"`, the trigger matches (its lowercasing contains
`"pesquisar"`), yet the tool receives the whole message `"Pesquisar gatos"`
as query: the occurrence `"Pesquisar"` — the very letter case that matched
— is not stripped. -/
theorem argumento_busca_contraexemplo :
    (Agente.init "Bot" "gemini-2.0-flash" 0 0).toOption.map (fun a =>
        ((a.registrar_ferramenta ⟨"buscar", "Busca informações na web",
            fun termo => .ok ("Resultados da busca por '" ++ termo ++ "'")⟩).processar_mensagem
          "Pesquisar gatos" true (fun _ => .ok "ok") 1).invocacoes)
      = some [("buscar", "Pesquisar gatos")] ∧
    pyContains (pyLower "Pesquisar gatos") "pesquisar" = true ∧
    pyContains "Pesquisar gatos" "Pesquisar" = true := by
  decide

/-- C2, amended: on a search-triggering message (that does not trigger the
compute branch) with a registered search tool, the tool is invoked exactly
once, with the message after removing the exact lowercase occurrences of
`"pesquisar"` (left to right, non-overlapping) and trimming surrounding
whitespace; occurrences of the trigger in any other letter case remain in
the query. -/
theorem argumento_busca (a : Agente) (msg : String)
    (backend : String → Except String String) (now : Nat) (f : Ferramenta)
    (hc : pyContains (pyLower msg) "calcular" = false)
    (hp : pyContains (pyLower msg) "pesquisar" = true)
    (hl : List.lookup "buscar" a.ferramentas = some f) :
    (a.processar_mensagem msg true backend now).invocacoes
      = [("buscar", pyStrip (pyReplace msg "pesquisar" ""))] := by
  rw [invocacoes_processar]
  cases hf : f.func (pyStrip (pyReplace msg "pesquisar" "")) <;>
    simp [Agente.selecionar_ferramenta, hc, hp, hl, hf]

/-- Witness for the amended C2: `"pesquisar gatos"` yields the query
`"gatos"`. -/
theorem argumento_busca_witness :
    (agenteFalho.processar_mensagem "pesquisar gatos" true
        (fun _ => .ok "resp") 2).invocacoes = [("buscar", "gatos")] := by
  rw [argumento_busca agenteFalho "pesquisar gatos" (fun _ => .ok "resp") 2
    ⟨"buscar", "Busca informações na web", fun _ => .error "rede fora"⟩
    (by decide) (by decide) rfl]
  decide

end Aula1
